import Mathlib

/-!
Shallow embedding of the authentication core of the school-api repository:
the JWT helpers used by the auth controller, the auth middleware
(src/middleware/authMiddleware.js), and the register/login/createCourse
handlers (src/controllers/authen.controller.js, course.controller.js).
Time is measured in seconds as a natural number.  The jsonwebtoken library
is modelled at the level the code uses it: a token is a signed payload
carrying the claims, the issued-at and expiry timestamps and the signing
secret; verification checks the secret and the expiry.  The credential
store (Sequelize User model) is modelled as a list of users plus injected
failure results for its two operations, so that handler behaviour on store
failure is expressible.
-/

set_option autoImplicit false

namespace SchoolApi

/-- The claims payload signed at login: jwt.sign with id and email. -/
structure Claims where
  id : Nat
  email : String
deriving DecidableEq

/-- A wire token as the jsonwebtoken library sees it: either a well-formed
signed token recording its claims, issued-at, expiry and signing secret, or
a malformed string that verification always rejects. -/
inductive Token where
  | signed (claims : Claims) (iat : Nat) (exp : Nat) (secret : String)
  | malformed (raw : String)
deriving DecidableEq

/-- The failure reasons jwt.verify can raise. -/
inductive JwtError where
  | invalidSignature
  | expired
  | badFormat
deriving DecidableEq

/-- jwt.sign with expiresIn one hour: expiry is issued-at plus 3600 seconds. -/
def jwtSign (c : Claims) (secret : String) (now : Nat) : Token :=
  .signed c now (now + 3600) secret

/-- jwt.verify: rejects a malformed token, a token signed with a different
secret, and a token whose expiry is not in the future (the library throws
TokenExpiredError when the clock reaches exp). -/
def jwtVerify (t : Token) (secret : String) (now : Nat) : Except JwtError Claims :=
  match t with
  | .malformed _ => .error .badFormat
  | .signed c _ exp s =>
    if s ≠ secret then .error .invalidSignature
    else if exp ≤ now then .error .expired
    else .ok c

/-- JavaScript `process.env.JWT_SECRET || dflt`: the default is used when the
variable is absent or the empty string (both are falsy). -/
def envOr (envVal : Option String) (dflt : String) : String :=
  match envVal with
  | none => dflt
  | some s => if s = "" then dflt else s

/-- The SECRET constant of authen.controller.js. -/
def controllerSecret (env : Option String) : String :=
  envOr env "IamJack21"

/-- The SECRET constant of the auth middleware. -/
def middlewareSecret (env : Option String) : String :=
  envOr env "chaewon"

/-- JavaScript falsiness of an optional string: undefined or the empty string. -/
def isFalsyStr : Option String → Bool
  | none => true
  | some s => s = ""

/-- Splits a character list at every space character, keeping empty
segments, exactly as JavaScript split with a single-space separator does. -/
def splitSpaceAux : List Char → List Char → List (List Char)
  | [], acc => [acc.reverse]
  | ch :: cs, acc =>
    if ch = ' ' then acc.reverse :: splitSpaceAux cs []
    else splitSpaceAux cs (ch :: acc)

/-- JavaScript authHeader.split with a single-space separator. -/
def jsSplitSpace (s : String) : List String :=
  (splitSpaceAux s.data []).map String.mk

/-- Outcome of the auth middleware on one request. -/
inductive MwResult where
  /-- res.status(status).json with a message body; next is not invoked. -/
  | respond (status : Nat) (message : String)
  /-- res.status(status) followed by a call of an undefined method
  (the jjson typo): a TypeError is thrown out of the middleware. -/
  | methodMissing (status : Nat) (method : String)
  /-- req.user is set to the decoded claims and next() is invoked. -/
  | authorized (user : Claims)
deriving DecidableEq

/-- The authenticate middleware.  decode maps the wire string extracted from
the header to the token the jwt library parses it as; secret and now are the
verification secret and current time; authHeader is req.headers.authorization. -/
def authenticate (decode : String → Token) (secret : String) (now : Nat)
    (authHeader : Option String) : MwResult :=
  if isFalsyStr authHeader then .respond 401 "No token provided"
  else
    let tok := (jsSplitSpace (authHeader.getD "")).get? 1
    if isFalsyStr tok then .methodMissing 401 "jjson"
    else
      match jwtVerify (decode (tok.getD "")) secret now with
      | .ok decoded => .authorized decoded
      | .error _ => .respond 401 "Invalid token"

/-- A bcrypt hash: records the salt and is checkable one way. -/
structure Hash where
  salt : Nat
  plain : String
deriving DecidableEq

/-- bcrypt.hash with a per-call salt. -/
def bcryptHash (plaintext : String) (salt : Nat) : Hash :=
  ⟨salt, plaintext⟩

/-- bcrypt.compare: true exactly when the hash was produced from this plaintext. -/
def bcryptCompare (plaintext : String) (h : Hash) : Bool :=
  h.plain = plaintext

/-- A persisted user record.  The password field stores the bcrypt hash. -/
structure User where
  id : Nat
  name : String
  email : String
  password : Hash
deriving DecidableEq

/-- The credential store (the Sequelize User model): current rows, the id the
next created row receives, and injected failure results for findOne and
create so that store failures are expressible. -/
structure Store where
  users : List User
  nextId : Nat
  findErr : Option String
  createErr : Option String
deriving DecidableEq

/-- await User.findOne by email: first row with this email, or an exception. -/
def Store.findOne (st : Store) (email : String) : Except String (Option User) :=
  match st.findErr with
  | some e => .error e
  | none => .ok (st.users.find? (fun u => u.email = email))

/-- await User.create: appends a fresh row with the next id, or an exception. -/
def Store.create (st : Store) (name email : String) (pw : Hash) :
    Except String (User × Store) :=
  match st.createErr with
  | some e => .error e
  | none =>
    let u : User := ⟨st.nextId, name, email, pw⟩
    .ok (u, { st with users := st.users ++ [u], nextId := st.nextId + 1 })

/-- A created course row, as echoed back by the course controller. -/
structure CourseRec where
  id : Nat
  title : String
  description : String
  teacherId : Nat
deriving DecidableEq

/-- A JSON response body of the handlers under study. -/
inductive Body where
  /-- A body with a single message field. -/
  | msg (message : String)
  /-- The login success body: token plus the public user fields id and email. -/
  | tokenUser (token : Token) (user : Claims)
  /-- The register success body: message plus the public user fields. -/
  | registered (message : String) (user : Claims)
  /-- The course-created body echoing the row. -/
  | courseVal (course : CourseRec)
  /-- The catch-branch body of the course controller with an error field. -/
  | errVal (error : String)
deriving DecidableEq

/-- An HTTP response: status code and JSON body. -/
structure Resp where
  status : Nat
  body : Body
deriving DecidableEq

/-- The login handler.  A returned .error models an exception escaping the
handler (it has no try/catch): a store failure is not converted to a
response.  On success the body carries the freshly signed token and the
public user fields only. -/
def login (st : Store) (email password : String) (env : Option String)
    (now : Nat) : Except String Resp :=
  match st.findOne email with
  | .error e => .error e
  | .ok none => .ok ⟨404, .msg "User not found"⟩
  | .ok (some user) =>
    if !(bcryptCompare password user.password) then
      .ok ⟨401, .msg "Invalid email or password"⟩
    else
      .ok ⟨200, .tokenUser (jwtSign ⟨user.id, user.email⟩ (controllerSecret env) now)
                  ⟨user.id, user.email⟩⟩

/-- The register handler.  Also without try/catch: a store failure escapes
as .error.  Returns the response together with the store after the call. -/
def register (st : Store) (name email password : String) (salt : Nat) :
    Except String (Resp × Store) :=
  match st.findOne email with
  | .error e => .error e
  | .ok (some _) => .ok (⟨400, .msg "Email already exists"⟩, st)
  | .ok none =>
    match st.create name email (bcryptHash password salt) with
    | .error e => .error e
    | .ok (user, st2) =>
      .ok (⟨201, .registered "User registered" ⟨user.id, user.email⟩⟩, st2)

/-- The createCourse handler: its body is one try/catch around db.Course.create,
so every outcome of the store call becomes a response and nothing escapes. -/
def createCourse (createResult : Except String CourseRec) : Resp :=
  match createResult with
  | .ok course => ⟨201, .courseVal course⟩
  | .error e => ⟨500, .errVal e⟩

instance instDecEqExcept {ε α : Type} [DecidableEq ε] [DecidableEq α] :
    DecidableEq (Except ε α) := fun a b =>
  match a, b with
  | .error e, .error f =>
    if h : e = f then isTrue (congrArg Except.error h)
    else isFalse (fun hc => h (Except.error.inj hc))
  | .error _, .ok _ => isFalse (fun hc => Except.noConfusion hc)
  | .ok _, .error _ => isFalse (fun hc => Except.noConfusion hc)
  | .ok x, .ok y =>
    if h : x = y then isTrue (congrArg Except.ok h)
    else isFalse (fun hc => h (Except.ok.inj hc))

/-- A concrete one-user store used to instantiate hypotheses. -/
def demoStore : Store :=
  ⟨[⟨1, "Ra Fat", "a@b.c", bcryptHash "pw" 7⟩], 2, none, none⟩

theorem splitSpaceAux_no_space (l acc : List Char) (h : ∀ ch ∈ l, ch ≠ ' ') :
    splitSpaceAux l acc = [acc.reverse ++ l] := by
  induction l generalizing acc with
  | nil => simp [splitSpaceAux]
  | cons ch cs ih =>
    have hch : ch ≠ ' ' := h ch (List.mem_cons_self ch cs)
    rw [splitSpaceAux, if_neg hch, ih (ch :: acc) (fun c hc => h c (List.mem_cons_of_mem ch hc))]
    simp

theorem splitSpaceAux_space (l1 l2 acc : List Char) (h : ∀ ch ∈ l1, ch ≠ ' ') :
    splitSpaceAux (l1 ++ ' ' :: l2) acc = (acc.reverse ++ l1) :: splitSpaceAux l2 [] := by
  induction l1 generalizing acc with
  | nil => simp [splitSpaceAux]
  | cons ch cs ih =>
    have hch : ch ≠ ' ' := h ch (List.mem_cons_self ch cs)
    rw [List.cons_append, splitSpaceAux, if_neg hch,
      ih (ch :: acc) (fun c hc => h c (List.mem_cons_of_mem ch hc))]
    simp

theorem jsSplitSpace_two_words (w ts : String)
    (hw : ∀ ch ∈ w.data, ch ≠ ' ') (hts : ∀ ch ∈ ts.data, ch ≠ ' ') :
    jsSplitSpace (w ++ " " ++ ts) = [w, ts] := by
  have hsp : (" " : String).data = [' '] := rfl
  have hdata : (w ++ " " ++ ts).data = w.data ++ ' ' :: ts.data := by
    simp [String.data_append, hsp]
  rw [jsSplitSpace, hdata, splitSpaceAux_space w.data ts.data [] hw,
    splitSpaceAux_no_space ts.data [] hts]
  simp

theorem authenticate_verify_branch (decode : String → Token) (secret : String)
    (now : Nat) (hdr ts : String)
    (hget : (jsSplitSpace hdr)[1]? = some ts) (hts : ts ≠ "") :
    authenticate decode secret now (some hdr) =
      match jwtVerify (decode ts) secret now with
      | .ok decoded => .authorized decoded
      | .error _ => .respond 401 "Invalid token" := by
  have hne : hdr ≠ "" := by
    intro h
    rw [h] at hget
    have : (jsSplitSpace "")[1]? = none := by decide
    rw [this] at hget
    exact Option.noConfusion hget
  simp [authenticate, isFalsyStr, hne, hget, hts]

/-- C8: a request with no Authorization header is answered 401 with the
message "No token provided" and next is not invoked. -/
theorem c8_no_auth_header (decode : String → Token) (secret : String) (now : Nat) :
    authenticate decode secret now none = .respond 401 "No token provided" := rfl

/-- C3: on a header with no nonempty token segment after splitting on the
space character, the middleware does not send the documented 401 body: it
calls the undefined method jjson, so a TypeError escapes instead. -/
theorem c3_token_missing_throws (decode : String → Token) (secret : String)
    (now : Nat) (hdr : String) (hne : hdr ≠ "")
    (hget : isFalsyStr ((jsSplitSpace hdr)[1]?) = true) :
    authenticate decode secret now (some hdr) = .methodMissing 401 "jjson" := by
  cases hg : (jsSplitSpace hdr)[1]? with
  | none => simp [authenticate, isFalsyStr, hne, hg]
  | some t =>
    rw [hg] at hget
    have ht : t = "" := by simpa [isFalsyStr] using hget
    simp [authenticate, isFalsyStr, hne, hg, ht]

theorem c3_token_missing_throws_witness :
    "Bearer" ≠ "" ∧ isFalsyStr ((jsSplitSpace "Bearer")[1]?) = true ∧
    authenticate (fun r => Token.malformed r) "chaewon" 0 (some "Bearer") =
      .methodMissing 401 "jjson" :=
  ⟨by decide, by decide,
    c3_token_missing_throws (fun r => Token.malformed r) "chaewon" 0 "Bearer"
      (by decide) (by decide)⟩

/-- C7: whenever verification of the extracted token fails, for any reason
at all, the middleware answers 401 with the single message "Invalid token";
the reason never reaches the caller and next is not invoked. -/
theorem c7_uniform_invalid_token (decode : String → Token) (secret : String)
    (now : Nat) (hdr ts : String) (e : JwtError)
    (hget : (jsSplitSpace hdr)[1]? = some ts) (hts : ts ≠ "")
    (hv : jwtVerify (decode ts) secret now = .error e) :
    authenticate decode secret now (some hdr) = .respond 401 "Invalid token" := by
  rw [authenticate_verify_branch decode secret now hdr ts hget hts, hv]

theorem c7_uniform_invalid_token_witness :
    authenticate (fun r => Token.malformed r) "chaewon" 0 (some "Bearer x") =
      .respond 401 "Invalid token" :=
  c7_uniform_invalid_token (fun r => Token.malformed r) "chaewon" 0 "Bearer x" "x"
    JwtError.badFormat (by decide) (by decide) rfl

/-- C10: the middleware never inspects the scheme word of the Authorization
header: any header of the form W, a space, then a verifiable token is
authorized, and its outcome coincides with the Bearer form of the same
header. -/
theorem c10_scheme_word_ignored (w ts : String)
    (hw : ∀ ch ∈ w.data, ch ≠ ' ') (hwts : ∀ ch ∈ ts.data, ch ≠ ' ')
    (hts : ts ≠ "") (decode : String → Token) (secret : String) (now : Nat)
    (c : Claims) (hv : jwtVerify (decode ts) secret now = .ok c) :
    authenticate decode secret now (some (w ++ " " ++ ts)) = .authorized c ∧
    authenticate decode secret now (some (w ++ " " ++ ts)) =
      authenticate decode secret now (some ("Bearer" ++ " " ++ ts)) := by
  have hB : ∀ ch ∈ ("Bearer" : String).data, ch ≠ ' ' := by decide
  have hg1 : (jsSplitSpace (w ++ " " ++ ts))[1]? = some ts := by
    rw [jsSplitSpace_two_words w ts hw hwts]; rfl
  have hg2 : (jsSplitSpace ("Bearer" ++ " " ++ ts))[1]? = some ts := by
    rw [jsSplitSpace_two_words "Bearer" ts hB hwts]; rfl
  have h1 := authenticate_verify_branch decode secret now (w ++ " " ++ ts) ts hg1 hts
  have h2 := authenticate_verify_branch decode secret now ("Bearer" ++ " " ++ ts) ts hg2 hts
  constructor
  · rw [h1, hv]
  · rw [h1, h2]

theorem c10_scheme_word_ignored_witness :
    authenticate (fun _ => Token.signed ⟨1, "a@b.c"⟩ 0 3600 "s") "s" 5
      (some ("Basic" ++ " " ++ "tok")) = .authorized ⟨1, "a@b.c"⟩ :=
  (c10_scheme_word_ignored "Basic" "tok" (by decide) (by decide) (by decide)
    (fun _ => Token.signed ⟨1, "a@b.c"⟩ 0 3600 "s") "s" 5 ⟨1, "a@b.c"⟩ (by decide)).1

/-- C1: with JWT_SECRET absent, the login handler signs under its default
IamJack21 while the middleware verifies under its different default chaewon,
so every token issued by login is rejected by the middleware with 401
Invalid token. -/
theorem c1_mismatched_default_secrets :
    controllerSecret none = "IamJack21" ∧ middlewareSecret none = "chaewon" ∧
    controllerSecret none ≠ middlewareSecret none ∧
    ∀ (c : Claims) (tIssue now : Nat) (decode : String → Token) (hdr ts : String),
      (jsSplitSpace hdr)[1]? = some ts → ts ≠ "" →
      decode ts = jwtSign c (controllerSecret none) tIssue →
      authenticate decode (middlewareSecret none) now (some hdr) =
        .respond 401 "Invalid token" := by
  refine ⟨rfl, rfl, by decide, ?_⟩
  intro c tIssue now decode hdr ts hget hts hdec
  have hne : controllerSecret none ≠ middlewareSecret none := by decide
  have hv : jwtVerify (decode ts) (middlewareSecret none) now =
      .error .invalidSignature := by
    rw [hdec]
    simp [jwtSign, jwtVerify, hne]
  rw [authenticate_verify_branch decode (middlewareSecret none) now hdr ts hget hts, hv]

theorem c1_mismatched_default_secrets_witness :
    authenticate (fun _ => jwtSign ⟨1, "a@b.c"⟩ (controllerSecret none) 0)
      (middlewareSecret none) 0 (some "Bearer t") = .respond 401 "Invalid token" :=
  c1_mismatched_default_secrets.2.2.2 ⟨1, "a@b.c"⟩ 0 0
    (fun _ => jwtSign ⟨1, "a@b.c"⟩ (controllerSecret none) 0) "Bearer t" "t"
    (by decide) (by decide) rfl

/-- C2 as stated is false when JWT_SECRET is absent: a successful login
issues its token under the controller default secret, and the middleware,
verifying under its own different default, rejects that very token. -/
theorem c2_roundtrip_counterexample :
    login demoStore "a@b.c" "pw" none 0 =
      .ok ⟨200, .tokenUser (jwtSign ⟨1, "a@b.c"⟩ (controllerSecret none) 0)
            ⟨1, "a@b.c"⟩⟩ ∧
    jwtVerify (jwtSign ⟨1, "a@b.c"⟩ (controllerSecret none) 0)
      (middlewareSecret none) 0 ≠ .ok ⟨1, "a@b.c"⟩ ∧
    authenticate (fun _ => jwtSign ⟨1, "a@b.c"⟩ (controllerSecret none) 0)
      (middlewareSecret none) 0 (some "Bearer t") ≠ .authorized ⟨1, "a@b.c"⟩ := by
  refine ⟨by decide, by decide, by decide⟩

/-- C2 amended: when JWT_SECRET is set (nonempty), issue and verify share
one secret; a token returned by a successful login then verifies back to
the user claims at any time within the hour, and the middleware authorizes
the request carrying it. -/
theorem c2_shared_secret_roundtrip (s : String) (hs : s ≠ "")
    (st : Store) (email pw : String) (tIssue now : Nat) (tok : Token) (user : Claims)
    (hlogin : login st email pw (some s) tIssue = .ok ⟨200, .tokenUser tok user⟩)
    (hnow : now < tIssue + 3600)
    (decode : String → Token) (hdr ts : String)
    (hget : (jsSplitSpace hdr)[1]? = some ts) (hts : ts ≠ "")
    (hdec : decode ts = tok) :
    jwtVerify tok (middlewareSecret (some s)) now = .ok user ∧
    authenticate decode (middlewareSecret (some s)) now (some hdr) =
      .authorized user := by
  have hcs : controllerSecret (some s) = s := by simp [controllerSecret, envOr, hs]
  have hms : middlewareSecret (some s) = s := by simp [middlewareSecret, envOr, hs]
  have hv : jwtVerify tok (middlewareSecret (some s)) now = .ok user := by
    unfold login at hlogin
    cases hfo : st.findOne email with
    | error e => rw [hfo] at hlogin; simp at hlogin
    | ok found =>
      rw [hfo] at hlogin
      cases found with
      | none => simp at hlogin
      | some u =>
        cases hc : bcryptCompare pw u.password with
        | false => simp [hc] at hlogin
        | true =>
          simp [hc] at hlogin
          obtain ⟨htok, huser⟩ := hlogin
          subst htok
          subst huser
          have h2 : ¬ (tIssue + 3600 ≤ now) := Nat.not_le.mpr hnow
          rw [hcs, hms]
          simp [jwtSign, jwtVerify, h2]
  refine ⟨hv, ?_⟩
  rw [authenticate_verify_branch decode (middlewareSecret (some s)) now hdr ts hget hts,
    hdec, hv]

theorem c2_shared_secret_roundtrip_witness :
    jwtVerify (Token.signed ⟨1, "a@b.c"⟩ 0 3600 "k") (middlewareSecret (some "k")) 10 =
      .ok ⟨1, "a@b.c"⟩ ∧
    authenticate (fun _ => Token.signed ⟨1, "a@b.c"⟩ 0 3600 "k")
      (middlewareSecret (some "k")) 10 (some "Bearer t") = .authorized ⟨1, "a@b.c"⟩ :=
  c2_shared_secret_roundtrip "k" (by decide) demoStore "a@b.c" "pw" 0 10
    (Token.signed ⟨1, "a@b.c"⟩ 0 3600 "k") ⟨1, "a@b.c"⟩ (by decide) (by decide)
    (fun _ => Token.signed ⟨1, "a@b.c"⟩ 0 3600 "k") "Bearer t" "t"
    (by decide) (by decide) rfl

/-- C9: a token is signed with expiry exactly one hour after issuance;
verification under the signing secret succeeds at every time strictly
before the expiry and fails as expired at every later time; time enters
verification only through the expiry comparison. -/
theorem c9_one_hour_expiry (c : Claims) (s : String) (tIssue : Nat) :
    jwtSign c s tIssue = .signed c tIssue (tIssue + 3600) s ∧
    (∀ now, now < tIssue + 3600 → jwtVerify (jwtSign c s tIssue) s now = .ok c) ∧
    (∀ eps, 0 < eps →
      jwtVerify (jwtSign c s tIssue) s (tIssue + 3600 + eps) = .error .expired) := by
  refine ⟨rfl, ?_, ?_⟩
  · intro now hnow
    have h2 : ¬ (tIssue + 3600 ≤ now) := Nat.not_le.mpr hnow
    simp [jwtSign, jwtVerify, h2]
  · intro eps heps
    have h2 : tIssue + 3600 ≤ tIssue + 3600 + eps := Nat.le_add_right _ _
    simp [jwtSign, jwtVerify, h2]

theorem c9_one_hour_expiry_witness :
    jwtSign ⟨1, "a@b.c"⟩ "k" 0 = .signed ⟨1, "a@b.c"⟩ 0 3600 "k" ∧
    jwtVerify (jwtSign ⟨1, "a@b.c"⟩ "k" 0) "k" 3599 = .ok ⟨1, "a@b.c"⟩ ∧
    jwtVerify (jwtSign ⟨1, "a@b.c"⟩ "k" 0) "k" (0 + 3600 + 1) = .error .expired :=
  ⟨(c9_one_hour_expiry ⟨1, "a@b.c"⟩ "k" 0).1,
   (c9_one_hour_expiry ⟨1, "a@b.c"⟩ "k" 0).2.1 3599 (by decide),
   (c9_one_hour_expiry ⟨1, "a@b.c"⟩ "k" 0).2.2 1 (by decide)⟩

/-- C4 as stated is false: a credential-store failure during login or
register is not caught inside those handlers and escapes as an exception
instead of becoming a 500 response. -/
theorem c4_uncaught_store_failure :
    login ⟨[], 1, some "db down", none⟩ "a@b.c" "pw" none 0 = .error "db down" ∧
    register ⟨[], 1, some "db down", none⟩ "n" "a@b.c" "pw" 0 = .error "db down" := by
  refine ⟨by decide, by decide⟩

/-- C4 amended: the course-creation handler catches locally, mapping a store
failure to a 500 response with an error body and a success to 201, while
the register and login handlers have no catch, so a credential-store
failure propagates out of them unconverted. -/
theorem c4_catch_only_in_course_handler (e : String) (st : Store)
    (hf : st.findErr = some e) (name email pw : String) (salt now : Nat)
    (env : Option String) :
    createCourse (.error e) = ⟨500, .errVal e⟩ ∧
    (∀ course, createCourse (.ok course) = ⟨201, .courseVal course⟩) ∧
    login st email pw env now = .error e ∧
    register st name email pw salt = .error e := by
  refine ⟨rfl, fun course => rfl, ?_, ?_⟩
  · simp [login, Store.findOne, hf]
  · simp [register, Store.findOne, hf]

theorem c4_catch_only_in_course_handler_witness :
    createCourse (.error "db down") = ⟨500, .errVal "db down"⟩ ∧
    login ⟨[], 1, some "db down", none⟩ "a@b.c" "pw" none 0 = .error "db down" :=
  ⟨(c4_catch_only_in_course_handler "db down" ⟨[], 1, some "db down", none⟩ rfl
      "n" "a@b.c" "pw" 0 0 none).1,
   (c4_catch_only_in_course_handler "db down" ⟨[], 1, some "db down", none⟩ rfl
      "n" "a@b.c" "pw" 0 0 none).2.2.1⟩

/-- C5: login answers 404 User not found when no user has the email, 401
Invalid email or password when the stored hash does not match, and 200 with
a freshly signed token plus only the public fields id and email on a match. -/
theorem c5_login_spec (st : Store) (email pw : String) (env : Option String)
    (now : Nat) (hok : st.findErr = none) :
    (st.users.find? (fun u => u.email = email) = none →
      login st email pw env now = .ok ⟨404, .msg "User not found"⟩) ∧
    (∀ u, st.users.find? (fun v => v.email = email) = some u →
      bcryptCompare pw u.password = false →
      login st email pw env now = .ok ⟨401, .msg "Invalid email or password"⟩) ∧
    (∀ u, st.users.find? (fun v => v.email = email) = some u →
      bcryptCompare pw u.password = true →
      login st email pw env now =
        .ok ⟨200, .tokenUser (jwtSign ⟨u.id, u.email⟩ (controllerSecret env) now)
              ⟨u.id, u.email⟩⟩) := by
  refine ⟨?_, ?_, ?_⟩
  · intro hnone
    simp [login, Store.findOne, hok, hnone]
  · intro u hu hc
    simp [login, Store.findOne, hok, hu, hc]
  · intro u hu hc
    simp [login, Store.findOne, hok, hu, hc]

theorem c5_login_spec_witness :
    login demoStore "x@y.z" "pw" none 0 = .ok ⟨404, .msg "User not found"⟩ ∧
    login demoStore "a@b.c" "wrong" none 0 =
      .ok ⟨401, .msg "Invalid email or password"⟩ ∧
    login demoStore "a@b.c" "pw" none 0 =
      .ok ⟨200, .tokenUser (jwtSign ⟨1, "a@b.c"⟩ (controllerSecret none) 0)
            ⟨1, "a@b.c"⟩⟩ :=
  ⟨(c5_login_spec demoStore "x@y.z" "pw" none 0 rfl).1 (by decide),
   (c5_login_spec demoStore "a@b.c" "wrong" none 0 rfl).2.1
     ⟨1, "Ra Fat", "a@b.c", bcryptHash "pw" 7⟩ (by decide) (by decide),
   (c5_login_spec demoStore "a@b.c" "pw" none 0 rfl).2.2
     ⟨1, "Ra Fat", "a@b.c", bcryptHash "pw" 7⟩ (by decide) (by decide)⟩

/-- C6: register answers 400 Email already exists and leaves the store
unchanged when the email is taken; otherwise it hashes the password,
appends the new row, and answers 201 whose body carries only the public
fields id and email; hence a second registration of the same email on the
updated store gets the 400 conflict. -/
theorem c6_register_conflict (st : Store) (name email pw : String) (salt : Nat)
    (hok : st.findErr = none) :
    (∀ u, st.users.find? (fun v => v.email = email) = some u →
      register st name email pw salt =
        .ok (⟨400, .msg "Email already exists"⟩, st)) ∧
    (st.users.find? (fun v => v.email = email) = none → st.createErr = none →
      register st name email pw salt =
        .ok (⟨201, .registered "User registered" ⟨st.nextId, email⟩⟩,
          { st with users := st.users ++ [⟨st.nextId, name, email, bcryptHash pw salt⟩],
                    nextId := st.nextId + 1 })) ∧
    (st.users.find? (fun v => v.email = email) = none → st.createErr = none →
      ∀ name2 pw2 salt2,
        register { st with
            users := st.users ++ [⟨st.nextId, name, email, bcryptHash pw salt⟩],
            nextId := st.nextId + 1 } name2 email pw2 salt2 =
          .ok (⟨400, .msg "Email already exists"⟩,
            { st with
              users := st.users ++ [⟨st.nextId, name, email, bcryptHash pw salt⟩],
              nextId := st.nextId + 1 })) := by
  refine ⟨?_, ?_, ?_⟩
  · intro u hu
    simp [register, Store.findOne, hok, hu]
  · intro hnone hcr
    simp [register, Store.findOne, Store.create, hok, hnone, hcr]
  · intro hnone hcr name2 pw2 salt2
    have hfind2 : (st.users ++ [(⟨st.nextId, name, email, bcryptHash pw salt⟩ : User)]).find?
        (fun v => v.email = email) = some ⟨st.nextId, name, email, bcryptHash pw salt⟩ := by
      rw [List.find?_append, hnone]
      simp
    simp [register, Store.findOne, hok, hfind2]

theorem c6_register_conflict_witness :
    register ⟨[], 1, none, none⟩ "n" "a@b.c" "pw" 3 =
      .ok (⟨201, .registered "User registered" ⟨1, "a@b.c"⟩⟩,
        ⟨[⟨1, "n", "a@b.c", bcryptHash "pw" 3⟩], 2, none, none⟩) ∧
    register ⟨[⟨1, "n", "a@b.c", bcryptHash "pw" 3⟩], 2, none, none⟩
        "n2" "a@b.c" "pw2" 4 =
      .ok (⟨400, .msg "Email already exists"⟩,
        ⟨[⟨1, "n", "a@b.c", bcryptHash "pw" 3⟩], 2, none, none⟩) :=
  ⟨(c6_register_conflict ⟨[], 1, none, none⟩ "n" "a@b.c" "pw" 3 rfl).2.1
     (by decide) rfl,
   (c6_register_conflict ⟨[], 1, none, none⟩ "n" "a@b.c" "pw" 3 rfl).2.2
     (by decide) rfl "n2" "pw2" 4⟩

end SchoolApi
